import Mathlib

/-!
Shallow embedding of the domain models of the Community-Circle-Alert
server (Alert, CheckIn, Circle, socket fan-out), translated from
`server/models/Alert.js`, `server/models/CheckIn.js`,
`server/models/Circle.js` and `server/utils/socket.js`.

Timestamps are integers (milliseconds, as produced by `Date.now()`),
user identifiers are naturals, and the string-valued enumerations of the
schemas are kept as strings with exactly the source's spellings.
Fallible methods return `Except String α` carrying the source's thrown
error message; methods that cannot throw return the new document state.
-/

namespace CCA

/-- Replace the first element satisfying `p` by its image under `f`,
mirroring the JavaScript pattern of `Array.prototype.find` followed by
in-place mutation of the found element. -/
def updateFirst (p : α → Bool) (f : α → α) : List α → List α
  | [] => []
  | x :: xs => if p x then f x :: xs else x :: updateFirst p f xs

/-- The acknowledgment-upsert pattern shared by `Alert.acknowledge` and
`CheckIn.addAcknowledgment`: look for an existing record matching `p`;
when found, mutate the first such record in place with `f`; otherwise
push the fresh record `new` at the end. -/
def upsert (p : α → Bool) (f : α → α) (new : α) (l : List α) : List α :=
  if l.any p then updateFirst p f l else l ++ [new]

/-- An acknowledgment sub-document of an Alert (`acknowledgedBy` array). -/
structure Ack where
  user : Nat
  acknowledgedAt : Int
  response : String
  notes : String
  deriving Repr, DecidableEq

/-- An entry of the Alert's append-only `activityLog`. -/
structure LogEntry where
  action : String
  performedBy : Option Nat
  timestamp : Int
  details : String
  deriving Repr, DecidableEq

/-- The `autoEscalate` sub-document of an Alert. -/
structure AutoEscalate where
  enabled : Bool
  escalateAfterMinutes : Int
  escalated : Bool
  escalatedAt : Option Int
  deriving Repr, DecidableEq

/-- An Alert document (the fields of `alertSchema` that the lifecycle
methods read or write). -/
structure Alert where
  triggeredBy : Nat
  status : String
  acknowledgedBy : List Ack
  resolvedAt : Option Int
  resolvedBy : Option Nat
  resolutionStatus : Option String
  resolutionNotes : String
  priority : Int
  autoEscalate : AutoEscalate
  activityLog : List LogEntry
  createdAt : Int
  isDeleted : Bool
  deriving Repr, DecidableEq

namespace Alert

/-- Method `alertSchema.methods.acknowledge`: upsert the caller's
acknowledgment (update the first existing record for that user in place,
else push a new one), promote `active` to `acknowledged`, and append an
`acknowledged` activity entry.  The source never throws here. -/
def acknowledge (a : Alert) (userId : Nat) (response : String)
    (notes : String) (now : Int) : Alert :=
  let acks :=
    upsert (fun ack => ack.user == userId)
      (fun ack => { ack with acknowledgedAt := now, response := response, notes := notes })
      { user := userId, acknowledgedAt := now, response := response, notes := notes }
      a.acknowledgedBy
  let st := if a.status = "active" then "acknowledged" else a.status
  { a with
    acknowledgedBy := acks
    status := st
    activityLog := a.activityLog ++
      [{ action := "acknowledged", performedBy := some userId, timestamp := now,
         details := "Acknowledged with response: " ++ response }] }

/-- Method `alertSchema.methods.resolve`: throws when already resolved,
otherwise sets the `resolved` state with resolution metadata and appends
a `resolved` activity entry. -/
def resolve (a : Alert) (userId : Nat) (resolutionStatus : String)
    (notes : String) (now : Int) : Except String Alert :=
  if a.status = "resolved" then
    .error "Alert is already resolved"
  else
    .ok { a with
      status := "resolved"
      resolvedAt := some now
      resolvedBy := some userId
      resolutionStatus := some resolutionStatus
      resolutionNotes := notes
      activityLog := a.activityLog ++
        [{ action := "resolved", performedBy := some userId, timestamp := now,
           details := "Resolved as: " ++ resolutionStatus }] }

/-- Method `alertSchema.methods.cancel`: throws when the alert is
resolved, otherwise sets the `cancelled` state. -/
def cancel (a : Alert) (userId : Nat) (reason : String) (now : Int) :
    Except String Alert :=
  if a.status = "resolved" then
    .error "Cannot cancel a resolved alert"
  else
    .ok { a with
      status := "cancelled"
      resolvedAt := some now
      resolvedBy := some userId
      resolutionNotes := reason
      activityLog := a.activityLog ++
        [{ action := "cancelled", performedBy := some userId, timestamp := now,
           details := reason }] }

/-- Method `alertSchema.methods.markFalseAlarm`: unconditionally sets
the `false-alarm` state; the source performs no status guard. -/
def markFalseAlarm (a : Alert) (userId : Nat) (reason : String) (now : Int) :
    Except String Alert :=
  .ok { a with
    status := "false-alarm"
    resolvedAt := some now
    resolvedBy := some userId
    resolutionStatus := some "false-alarm"
    resolutionNotes := reason
    activityLog := a.activityLog ++
      [{ action := "resolved", performedBy := some userId, timestamp := now,
         details := "Marked as false alarm" }] }

/-- Method `alertSchema.methods.escalate`: no-op when
`autoEscalate.escalated` is already set, otherwise records escalation,
forces priority 5 and appends an `escalated` activity entry.  The only
guard the source checks is the `escalated` flag. -/
def escalate (a : Alert) (now : Int) : Alert :=
  if a.autoEscalate.escalated then a
  else
    { a with
      autoEscalate := { a.autoEscalate with escalated := true, escalatedAt := some now }
      priority := 5
      activityLog := a.activityLog ++
        [{ action := "escalated", performedBy := none, timestamp := now,
           details := "Auto-escalated due to no response" }] }

/-- Static `alertSchema.statics.findNeedingEscalation`: the query uses
the fixed threshold `Date.now() - 5 * 60 * 1000`; the per-alert
`autoEscalate.escalateAfterMinutes` field is not part of the query. -/
def findNeedingEscalation (alerts : List Alert) (now : Int) : List Alert :=
  alerts.filter (fun a =>
    a.status == "active" &&
    a.autoEscalate.enabled &&
    !a.autoEscalate.escalated &&
    decide (a.createdAt < now - 5 * 60 * 1000) &&
    !a.isDeleted)

/-- Modelled from the spec (for comparison with `findNeedingEscalation`):
the escalation-sweep query as the claim words it, with each alert's own
`escalateAfterMinutes` as the age threshold. -/
def specFindNeedingEscalation (alerts : List Alert) (now : Int) : List Alert :=
  alerts.filter (fun a =>
    a.status == "active" &&
    a.autoEscalate.enabled &&
    !a.autoEscalate.escalated &&
    decide (a.createdAt < now - a.autoEscalate.escalateAfterMinutes * 60 * 1000) &&
    !a.isDeleted)

/-- Number of acknowledgment records a given user holds on the alert. -/
def ackCount (a : Alert) (userId : Nat) : Nat :=
  (a.acknowledgedBy.filter (fun ack => ack.user == userId)).length

/-- The first acknowledgment record of a given user, as `find` returns it. -/
def findAck (a : Alert) (userId : Nat) : Option Ack :=
  a.acknowledgedBy.find? (fun ack => ack.user == userId)

/-- Number of `escalated` entries in the activity log. -/
def escalatedEntryCount (a : Alert) : Nat :=
  (a.activityLog.filter (fun e => e.action == "escalated")).length

end Alert

/-- An acknowledgment sub-document of a CheckIn (`acknowledgments` array). -/
structure CIAck where
  user : Nat
  acknowledgedAt : Int
  message : String
  deriving Repr, DecidableEq

/-- A `locationHistory` sample of a CheckIn. -/
structure LocationSample where
  coordinates : Int × Int
  timestamp : Int
  deriving Repr, DecidableEq

/-- A CheckIn document (the fields of `checkInSchema` that the lifecycle
methods read or write).  `coordinates` is the `[longitude, latitude]`
pair of the current location. -/
structure CheckIn where
  user : Nat
  status : String
  expectedReturnTime : Int
  coordinates : Int × Int
  completedAt : Option Int
  completionNotes : String
  completionStatus : Option String
  acknowledgments : List CIAck
  locationHistory : List LocationSample
  isDeleted : Bool
  deriving Repr, DecidableEq

namespace CheckIn

/-- Middleware `checkInSchema.pre('save')`: whenever the document is
saved while `active` with `expectedReturnTime` in the past, the persisted
status becomes `overdue`. -/
def preSave (c : CheckIn) (now : Int) : CheckIn :=
  if c.status = "active" ∧ c.expectedReturnTime < now then
    { c with status := "overdue" }
  else c

/-- A mongoose `save` runs the pre-save middleware and persists. -/
def save (c : CheckIn) (now : Int) : CheckIn := preSave c now

/-- Method `checkInSchema.methods.checkOverdue`: explicitly materialize
the `overdue` status when active past the deadline; otherwise leave the
document untouched (no save happens in that branch). -/
def checkOverdue (c : CheckIn) (now : Int) : CheckIn :=
  if c.status = "active" ∧ c.expectedReturnTime < now then
    save { c with status := "overdue" } now
  else c

/-- Method `checkInSchema.methods.complete`: permitted from `active` or
`overdue`; computes `completionStatus` by comparing the deadline with
the completion moment; throws otherwise. -/
def complete (c : CheckIn) (notes : String) (now : Int) : Except String CheckIn :=
  if c.status ≠ "active" ∧ c.status ≠ "overdue" then
    .error "Only active or overdue check-ins can be completed"
  else
    let cs := if c.expectedReturnTime > now then "early"
              else if c.expectedReturnTime = now then "on-time"
              else "late"
    .ok (save { c with
                  status := "completed"
                  completedAt := some now
                  completionNotes := notes
                  completionStatus := some cs } now)

/-- Method `checkInSchema.methods.cancel`: the only guard is against the
`completed` status. -/
def cancel (c : CheckIn) (now : Int) : Except String CheckIn :=
  if c.status = "completed" then
    .error "Cannot cancel a completed check-in"
  else
    .ok (save { c with status := "cancelled" } now)

/-- Method `checkInSchema.methods.addAcknowledgment`: upsert the
caller's acknowledgment record (update the first existing record in
place, else push), then save. -/
def addAcknowledgment (c : CheckIn) (userId : Nat) (message : String)
    (now : Int) : CheckIn :=
  let acks :=
    upsert (fun ack => ack.user == userId)
      (fun ack => { ack with acknowledgedAt := now, message := message })
      { user := userId, acknowledgedAt := now, message := message }
      c.acknowledgments
  save { c with acknowledgments := acks } now

/-- Method `checkInSchema.methods.updateLocation`: guarded on the status
being `active` at call time; updates the current location, appends to
the history, keeps only the newest 50 samples, then saves. -/
def updateLocation (c : CheckIn) (longitude latitude : Int) (now : Int) :
    Except String CheckIn :=
  if c.status ≠ "active" then
    .error "Can only update location for active check-ins"
  else
    let hist := c.locationHistory ++
      [{ coordinates := (longitude, latitude), timestamp := now }]
    let hist := if hist.length > 50 then hist.drop (hist.length - 50) else hist
    .ok (save { c with
                  coordinates := (longitude, latitude)
                  locationHistory := hist } now)

/-- Number of acknowledgment records a given user holds on the check-in. -/
def ackCount (c : CheckIn) (userId : Nat) : Nat :=
  (c.acknowledgments.filter (fun ack => ack.user == userId)).length

/-- The first acknowledgment record of a given user, as `find` returns it. -/
def findAck (c : CheckIn) (userId : Nat) : Option CIAck :=
  c.acknowledgments.find? (fun ack => ack.user == userId)

end CheckIn

/-- A member sub-document of a Circle. -/
structure Member where
  user : Nat
  role : String
  joinedAt : Int
  isActive : Bool
  deriving Repr, DecidableEq

/-- The `settings` sub-document of a Circle (the part the membership
methods consult). -/
structure CircleSettings where
  maxMembers : Nat
  deriving Repr, DecidableEq

/-- The `stats` sub-document of a Circle. -/
structure CircleStats where
  totalAlerts : Nat
  totalCheckIns : Nat
  lastActivityAt : Int
  deriving Repr, DecidableEq

/-- A Circle document (the fields of `circleSchema` that the membership
methods read or write). -/
structure Circle where
  createdBy : Nat
  members : List Member
  settings : CircleSettings
  isActive : Bool
  stats : CircleStats
  deriving Repr, DecidableEq

namespace Circle

/-- Virtual `memberCount`: number of active members. -/
def memberCount (c : Circle) : Nat :=
  (c.members.filter (fun m => m.isActive)).length

/-- Number of active members whose role is `admin`, as computed by the
`adminCount` expressions inside `removeMember` and `updateMemberRole`. -/
def activeAdminCount (c : Circle) : Nat :=
  (c.members.filter (fun m => m.role == "admin" && m.isActive)).length

/-- Method `circleSchema.methods.addMember`: when an entry for the user
already exists it is reactivated if inactive (no capacity check on that
path) or left alone if active; only a brand-new member is subject to the
`memberCount >= maxMembers` capacity guard. -/
def addMember (c : Circle) (userId : Nat) (role : String) (now : Int) :
    Except String Circle :=
  match c.members.find? (fun m => m.user == userId) with
  | some _ =>
      .ok { c with
        members :=
          updateFirst (fun m => m.user == userId)
            (fun m => if m.isActive then m
                      else { m with isActive := true, joinedAt := now })
            c.members }
  | none =>
      if c.memberCount ≥ c.settings.maxMembers then
        .error "Circle has reached maximum member limit"
      else
        .ok { c with
          members := c.members ++
            [{ user := userId, role := role, joinedAt := now, isActive := true }]
          stats := { c.stats with lastActivityAt := now } }

/-- Method `circleSchema.methods.removeMember`: finds the first entry
for the user, rejects when that entry is an admin and at most one active
admin exists, otherwise soft-deactivates that entry. -/
def removeMember (c : Circle) (userId : Nat) (now : Int) :
    Except String Circle :=
  match c.members.find? (fun m => m.user == userId) with
  | none => .error "User is not a member of this circle"
  | some member =>
      if member.role = "admin" ∧ c.activeAdminCount ≤ 1 then
        .error "Cannot remove the last admin from the circle"
      else
        .ok { c with
          members := updateFirst (fun m => m.user == userId)
            (fun m => { m with isActive := false }) c.members
          stats := { c.stats with lastActivityAt := now } }

/-- Method `circleSchema.methods.updateMemberRole`: finds the first
active entry for the user, rejects a demotion of the last active admin,
otherwise updates that entry's role. -/
def updateMemberRole (c : Circle) (userId : Nat) (newRole : String)
    (now : Int) : Except String Circle :=
  match c.members.find? (fun m => m.user == userId && m.isActive) with
  | none => .error "User is not an active member of this circle"
  | some member =>
      if member.role = "admin" ∧ newRole ≠ "admin" ∧ c.activeAdminCount ≤ 1 then
        .error "Cannot demote the last admin"
      else
        .ok { c with
          members := updateFirst (fun m => m.user == userId && m.isActive)
            (fun m => { m with role := newRole }) c.members
          stats := { c.stats with lastActivityAt := now } }

end Circle

/-- An authenticated socket connection: the auth middleware attached a
verified `userId` before any event handler runs. -/
structure Conn where
  connId : Nat
  userId : Nat
  deriving Repr, DecidableEq

/-- The fan-out layer's state: the set of connected (authenticated)
sockets and the room-membership table (connection id, room id). -/
structure SocketState where
  conns : List Conn
  rooms : List (Nat × String)
  deriving Repr, DecidableEq

namespace SocketState

/-- Handler `socket.on('join:circle')`: unconditionally
`socket.join('circle:' + circleId)` — the source performs no check that
the connection's user is a member of the circle. -/
def handleJoinCircle (s : SocketState) (c : Conn) (circleId : String) :
    SocketState :=
  { s with rooms := (c.connId, "circle:" ++ circleId) :: s.rooms }

/-- Connection ids subscribed to a room. -/
def roomMembers (s : SocketState) (room : String) : List Nat :=
  (s.conns.filter (fun c => s.rooms.contains (c.connId, room))).map (fun c => c.connId)

/-- Helper `emitToCircle`: `io.to('circle:' + circleId).emit(...)`
delivers the event to exactly the connections currently in the circle's
room. -/
def emitToCircle (s : SocketState) (circleId : String) : List Nat :=
  s.roomMembers ("circle:" ++ circleId)

end SocketState

/-- Whether `u` is the sole active admin of the circle: exactly one
active admin exists and an entry for `u` is an active admin. -/
def Circle.soleActiveAdmin (c : Circle) (u : Nat) : Prop :=
  c.activeAdminCount = 1 ∧
    ∃ m ∈ c.members, m.user = u ∧ m.isActive = true ∧ m.role = "admin"

instance (c : Circle) (u : Nat) : Decidable (c.soleActiveAdmin u) := by
  unfold Circle.soleActiveAdmin
  infer_instance

/-! Concrete sample documents used by counterexamples and witnesses. -/

/-- A freshly created panic alert, as `Alert.create` initializes one. -/
def baseAlert : Alert :=
  { triggeredBy := 1
    status := "active"
    acknowledgedBy := []
    resolvedAt := none
    resolvedBy := none
    resolutionStatus := none
    resolutionNotes := ""
    priority := 5
    autoEscalate := { enabled := true, escalateAfterMinutes := 5,
                      escalated := false, escalatedAt := none }
    activityLog := [{ action := "created", performedBy := some 1,
                      timestamp := 0, details := "Alert created: panic" }]
    createdAt := 0
    isDeleted := false }

/-- The sample alert after its creator resolved it at time 40. -/
def resolvedAlert : Alert :=
  { baseAlert with
    status := "resolved"
    resolvedAt := some 40
    resolvedBy := some 1
    resolutionStatus := some "safe" }

/-- The sample alert after its creator cancelled it at time 40. -/
def cancelledAlert : Alert :=
  { baseAlert with
    status := "cancelled"
    resolvedAt := some 40
    resolvedBy := some 1 }

/-- The sample alert after its creator marked it a false alarm at
time 40. -/
def falseAlarmAlert : Alert :=
  { baseAlert with
    status := "false-alarm"
    resolvedAt := some 40
    resolvedBy := some 1
    resolutionStatus := some "false-alarm" }

/-- An active alert whose `escalateAfterMinutes` is 10 rather than the
default 5. -/
def slowEscalationAlert : Alert :=
  { baseAlert with
    autoEscalate := { enabled := true, escalateAfterMinutes := 10,
                      escalated := false, escalatedAt := none } }

/-- An active check-in due back at time 100. -/
def baseCheckIn : CheckIn :=
  { user := 1
    status := "active"
    expectedReturnTime := 100
    coordinates := (0, 0)
    completedAt := none
    completionNotes := ""
    completionStatus := none
    acknowledgments := []
    locationHistory := []
    isDeleted := false }

/-- The sample check-in after its owner cancelled it. -/
def cancelledCheckIn : CheckIn :=
  { baseCheckIn with status := "cancelled" }

/-- An active check-in whose deadline (time 5) is already past at the
times the sample operations run. -/
def pastDeadlineCheckIn : CheckIn :=
  { baseCheckIn with expectedReturnTime := 5 }

/-- A two-seat circle holding two active members and one inactive
former member. -/
def fullCircle : Circle :=
  { createdBy := 1
    members := [{ user := 1, role := "admin", joinedAt := 0, isActive := true },
                { user := 2, role := "member", joinedAt := 0, isActive := true },
                { user := 3, role := "member", joinedAt := 0, isActive := false }]
    settings := { maxMembers := 2 }
    isActive := true
    stats := { totalAlerts := 0, totalCheckIns := 0, lastActivityAt := 0 } }

/-- A circle whose sole active admin is user 1, with a second plain
member. -/
def twoMemberCircle : Circle :=
  { createdBy := 1
    members := [{ user := 1, role := "admin", joinedAt := 0, isActive := true },
                { user := 2, role := "member", joinedAt := 0, isActive := true }]
    settings := { maxMembers := 50 }
    isActive := true
    stats := { totalAlerts := 0, totalCheckIns := 0, lastActivityAt := 0 } }

/-- A one-connection socket state: connection 7 belongs to user 1 and
has joined no room yet. -/
def baseSocketState : SocketState :=
  { conns := [{ connId := 7, userId := 1 }]
    rooms := [] }

/-! General lemmas about `updateFirst` and `upsert`, shared by the
claim theorems below. -/

theorem updateFirst_filter_length {α} (p : α → Bool) (f : α → α)
    (hp : ∀ x, p (f x) = p x) (l : List α) :
    ((updateFirst p f l).filter p).length = (l.filter p).length := by
  induction l with
  | nil => rfl
  | cons a l ih =>
    by_cases h : p a = true
    · simp [updateFirst, h, List.filter_cons, hp]
    · simp only [Bool.not_eq_true] at h
      simp [updateFirst, h, List.filter_cons, ih]

theorem updateFirst_find? {α} (p : α → Bool) (f : α → α)
    (hp : ∀ x, p (f x) = p x) (l : List α) :
    (updateFirst p f l).find? p = (l.find? p).map f := by
  induction l with
  | nil => rfl
  | cons a l ih =>
    by_cases h : p a = true
    · simp [updateFirst, h, List.find?_cons, hp]
    · simp only [Bool.not_eq_true] at h
      simp [updateFirst, h, List.find?_cons, ih]

theorem find?_append_of_forall_not {α} (p : α → Bool) (l : List α) (n : α)
    (h : ∀ x ∈ l, p x = false) (hn : p n = true) :
    (l ++ [n]).find? p = some n := by
  induction l with
  | nil => simp [List.find?_cons, hn]
  | cons a l ih =>
    have ha := h a (List.mem_cons_self a l)
    simp only [List.cons_append, List.find?_cons, ha]
    exact ih (fun x hx => h x (List.mem_cons_of_mem a hx))

theorem upsert_filter_length {α} (p : α → Bool) (f : α → α) (n : α)
    (l : List α) (hp : ∀ x, p (f x) = p x) (hn : p n = true)
    (hl : (l.filter p).length ≤ 1) :
    ((upsert p f n l).filter p).length = 1 := by
  by_cases h : l.any p = true
  · rw [upsert, if_pos h, updateFirst_filter_length p f hp]
    obtain ⟨x, hx, hpx⟩ := List.any_eq_true.mp h
    have : x ∈ l.filter p := List.mem_filter.mpr ⟨hx, hpx⟩
    have hpos : 0 < (l.filter p).length := List.length_pos.mpr (fun he => by simp [he] at this)
    omega
  · rw [upsert, if_neg h, List.filter_append]
    have : l.filter p = [] := by
      rw [List.filter_eq_nil_iff]
      intro x hx
      simp only [List.any_eq_true, not_exists, not_and] at h
      intro hpx
      exact h x hx hpx
    simp [this, hn]

theorem upsert_find? {α} (p : α → Bool) (f : α → α) (n : α) (l : List α)
    (hp : ∀ x, p (f x) = p x) (hn : p n = true) :
    (upsert p f n l).find? p =
      (match l.find? p with
       | some x => some (f x)
       | none => some n) := by
  by_cases h : l.any p = true
  · rw [upsert, if_pos h, updateFirst_find? p f hp]
    obtain ⟨x, hx, hpx⟩ := List.any_eq_true.mp h
    obtain ⟨y, hy⟩ := List.find?_isSome.mpr ⟨x, hx, hpx⟩ |> Option.isSome_iff_exists.mp
    simp [hy]
  · have hnone : l.find? p = none := by
      rw [List.find?_eq_none]
      intro x hx
      simp only [List.any_eq_true, not_exists, not_and] at h
      intro hpx
      exact h x hx hpx
    rw [upsert, if_neg h, hnone]
    have : ∀ x ∈ l, p x = false := by
      intro x hx
      have := List.find?_eq_none.mp hnone x hx
      simpa using this
    simp [find?_append_of_forall_not p l n this hn]

theorem upsert_any {α} (p : α → Bool) (f : α → α) (n : α) (l : List α)
    (hp : ∀ x, p (f x) = p x) (hn : p n = true) :
    (upsert p f n l).any p = true := by
  have := upsert_find? p f n l hp hn
  have hs : ((upsert p f n l).find? p).isSome = true := by
    rw [this]
    cases l.find? p <;> simp
  obtain ⟨x, hx, hpx⟩ := List.find?_isSome.mp hs
  exact List.any_eq_true.mpr ⟨x, hx, hpx⟩

theorem find?_decomp {α} (p : α → Bool) (f : α → α) {l : List α} {x : α}
    (h : l.find? p = some x) :
    ∃ l₁ l₂, l = l₁ ++ x :: l₂ ∧ (∀ y ∈ l₁, p y = false) ∧
      updateFirst p f l = l₁ ++ f x :: l₂ := by
  induction l with
  | nil => simp [List.find?] at h
  | cons a l ih =>
    by_cases ha : p a = true
    · rw [List.find?_cons_of_pos _ ha] at h
      obtain rfl : a = x := by injection h
      exact ⟨[], l, by simp, by simp, by simp [updateFirst, ha]⟩
    · simp only [Bool.not_eq_true] at ha
      rw [List.find?_cons_of_neg _ (by simp [ha])] at h
      obtain ⟨l₁, l₂, hl, hl₁, hu⟩ := ih h
      refine ⟨a :: l₁, l₂, by simp [hl], ?_, ?_⟩
      · intro y hy
        rcases List.mem_cons.mp hy with rfl | hy
        · exact ha
        · exact hl₁ y hy
      · simp [updateFirst, ha, hu]

/-! Claim theorems. -/

/-- C1: the claim states that for a resolved alert `cancel`, `resolve`
and `markFalseAlarm` all fail.  `cancel` and `resolve` do fail, but the
source's `markFalseAlarm` performs no status guard: invoked on a
resolved alert it succeeds and moves the status to `false-alarm`.  This
theorem evaluates the code at that failing input. -/
theorem C1_markFalseAlarm_succeeds_on_resolved :
    Alert.resolve resolvedAlert 1 "safe" "" 50 = .error "Alert is already resolved" ∧
    Alert.cancel resolvedAlert 1 "" 50 = .error "Cannot cancel a resolved alert" ∧
    ∃ a', Alert.markFalseAlarm resolvedAlert 1 "oops" 50 = .ok a' ∧
      a'.status = "false-alarm" := by
  refine ⟨rfl, rfl, _, rfl, rfl⟩

/-- C2 counterexample: the claim states that `cancelled` is a terminal
status, yet `resolve` invoked on the cancelled sample alert succeeds and
moves the status to `resolved`. -/
theorem C2_resolve_moves_cancelled_alert :
    ∃ a', Alert.resolve cancelledAlert 1 "safe" "" 60 = .ok a' ∧
      a'.status = "resolved" := by
  refine ⟨_, rfl, rfl⟩

/-- C2 amended: only the `resolved` status is guarded, and only by
`resolve` and `cancel`.  From `resolved`, `resolve` and `cancel` fail
and `acknowledge` leaves the status `resolved`, but `markFalseAlarm`
still moves the alert to `false-alarm`; from `cancelled` and from
`false-alarm`, `resolve` succeeds and sets the status to `resolved`. -/
theorem C2_only_resolved_status_guarded (a b e : Alert) (u : Nat)
    (rs rn reason resp nts : String) (t : Int)
    (ha : a.status = "resolved") (hb : b.status = "cancelled")
    (he : e.status = "false-alarm") :
    Alert.resolve a u rs rn t = .error "Alert is already resolved" ∧
    Alert.cancel a u reason t = .error "Cannot cancel a resolved alert" ∧
    (Alert.acknowledge a u resp nts t).status = "resolved" ∧
    (∃ a', Alert.markFalseAlarm a u reason t = .ok a' ∧
      a'.status = "false-alarm") ∧
    (∃ b', Alert.resolve b u rs rn t = .ok b' ∧ b'.status = "resolved") ∧
    (∃ e', Alert.resolve e u rs rn t = .ok e' ∧ e'.status = "resolved") := by
  refine ⟨?_, ?_, ?_, ⟨_, rfl, rfl⟩, ?_, ?_⟩
  · simp [Alert.resolve, ha]
  · simp [Alert.cancel, ha]
  · simp [Alert.acknowledge, ha]
  · rw [Alert.resolve, if_neg (by simp [hb])]
    exact ⟨_, rfl, rfl⟩
  · rw [Alert.resolve, if_neg (by simp [he])]
    exact ⟨_, rfl, rfl⟩

/-- C2 witness: the amended theorem applied to the resolved, cancelled
and false-alarm sample alerts. -/
theorem C2_only_resolved_status_guarded_witness :
    resolvedAlert.status = "resolved" ∧ cancelledAlert.status = "cancelled" ∧
    falseAlarmAlert.status = "false-alarm" ∧
    (Alert.acknowledge resolvedAlert 2 "monitoring" "" 70).status = "resolved" :=
  ⟨rfl, rfl, rfl,
    (C2_only_resolved_status_guarded resolvedAlert cancelledAlert
      falseAlarmAlert 2 "safe" "" "" "monitoring" "" 70 rfl rfl rfl).2.2.1⟩

/-- C3 counterexample: the claim states that the escalation-sweep query
honors each alert's own `escalateAfterMinutes`, yet for an alert with
`escalateAfterMinutes = 10` that is 6 minutes old the source's query
(fixed 5-minute threshold) returns the alert while the query worded as
the claim would not. -/
theorem C3_query_ignores_per_alert_threshold :
    Alert.findNeedingEscalation [slowEscalationAlert] 360000 =
      [slowEscalationAlert] ∧
    Alert.specFindNeedingEscalation [slowEscalationAlert] 360000 = [] := by
  constructor <;> rfl

/-- C3 amended: `findNeedingEscalation` returns exactly the non-deleted
alerts that are active, escalation-enabled, not yet escalated, and
created more than a fixed 5 minutes (300000 ms) before the current
time; the per-alert `escalateAfterMinutes` setting is not consulted. -/
theorem C3_query_characterization (alerts : List Alert) (now : Int)
    (a : Alert) :
    a ∈ Alert.findNeedingEscalation alerts now ↔
      a ∈ alerts ∧ a.status = "active" ∧ a.autoEscalate.enabled = true ∧
        a.autoEscalate.escalated = false ∧
        a.createdAt < now - 300000 ∧ a.isDeleted = false := by
  simp only [Alert.findNeedingEscalation, List.mem_filter, Bool.and_eq_true,
    beq_iff_eq, Bool.not_eq_true', decide_eq_true_eq]
  constructor
  · rintro ⟨hm, ⟨⟨⟨hs, he⟩, hesc⟩, hage⟩, hd⟩
    norm_num at hage
    exact ⟨hm, hs, he, hesc, hage, hd⟩
  · rintro ⟨hm, hs, he, hesc, hage, hd⟩
    exact ⟨hm, ⟨⟨⟨hs, he⟩, hesc⟩, by norm_num; exact hage⟩, hd⟩

/-- C4 counterexample: the claim states that `escalate` never mutates
an alert once it is resolved, yet invoked on the resolved (never
escalated) sample alert it sets `autoEscalate.escalated` and changes
the document. -/
theorem C4_escalate_fires_on_resolved_alert :
    (Alert.escalate resolvedAlert 70).autoEscalate.escalated = true ∧
    Alert.escalate resolvedAlert 70 ≠ resolvedAlert := by
  refine ⟨rfl, ?_⟩
  intro h
  have := congrArg (fun a => a.autoEscalate.escalated) h
  simp [Alert.escalate, resolvedAlert, baseAlert] at this

/-- C4 amended: `escalate` is idempotent — on an alert that has never
escalated, two invocations leave exactly one `escalated` activity-log
entry, `autoEscalate.escalated` true and priority 5, the second call
being a no-op — and the sweep query only ever selects `active` alerts,
so sweep-driven escalation never touches a resolved alert; but a direct
`escalate` call on a resolved, never-escalated alert does mutate it
(see the counterexample). -/
theorem C4_escalate_idempotent (a : Alert) (t₁ t₂ : Int)
    (h₁ : a.autoEscalate.escalated = false)
    (h₂ : Alert.escalatedEntryCount a = 0) :
    Alert.escalatedEntryCount (Alert.escalate (Alert.escalate a t₁) t₂) = 1 ∧
    (Alert.escalate (Alert.escalate a t₁) t₂).autoEscalate.escalated = true ∧
    (Alert.escalate (Alert.escalate a t₁) t₂).priority = 5 ∧
    Alert.escalate (Alert.escalate a t₁) t₂ = Alert.escalate a t₁ ∧
    (∀ alerts now x, x ∈ Alert.findNeedingEscalation alerts now →
      x.status = "active") := by
  have hfirst : (Alert.escalate a t₁).autoEscalate.escalated = true := by
    simp [Alert.escalate, h₁]
  have hsecond : Alert.escalate (Alert.escalate a t₁) t₂ = Alert.escalate a t₁ := by
    rw [Alert.escalate, if_pos hfirst]
  refine ⟨?_, ?_, ?_, hsecond, ?_⟩
  · rw [hsecond]
    simp only [Alert.escalate, h₁, if_neg (by simp [h₁] : ¬(a.autoEscalate.escalated = true))]
    simp only [Alert.escalatedEntryCount] at h₂ ⊢
    simp [List.filter_append, h₂]
  · rw [hsecond]; exact hfirst
  · rw [hsecond]; simp [Alert.escalate, h₁]
  · intro alerts now x hx
    have := (List.mem_filter.mp hx).2
    simp only [Bool.and_eq_true, beq_iff_eq] at this
    exact this.1.1.1.1

/-- C4 witness: the idempotence theorem applied to the fresh sample
alert. -/
theorem C4_escalate_idempotent_witness :
    baseAlert.autoEscalate.escalated = false ∧
    Alert.escalatedEntryCount baseAlert = 0 ∧
    Alert.escalate (Alert.escalate baseAlert 300001) 400000 =
      Alert.escalate baseAlert 300001 :=
  ⟨rfl, rfl, (C4_escalate_idempotent baseAlert 300001 400000 rfl rfl).2.2.2.1⟩

/-! Projection helpers used by the acknowledgment and check-in claims. -/

theorem Alert.acknowledge_acknowledgedBy (a : Alert) (u : Nat)
    (r n : String) (t : Int) :
    (Alert.acknowledge a u r n t).acknowledgedBy =
      upsert (fun ack => ack.user == u)
        (fun ack => { ack with acknowledgedAt := t, response := r, notes := n })
        { user := u, acknowledgedAt := t, response := r, notes := n }
        a.acknowledgedBy := rfl

theorem CheckIn.preSave_acknowledgments (c : CheckIn) (now : Int) :
    (CheckIn.preSave c now).acknowledgments = c.acknowledgments := by
  rw [CheckIn.preSave]
  split <;> rfl

theorem CheckIn.addAcknowledgment_acknowledgments (c : CheckIn) (u : Nat)
    (m : String) (t : Int) :
    (CheckIn.addAcknowledgment c u m t).acknowledgments =
      upsert (fun ack => ack.user == u)
        (fun ack => { ack with acknowledgedAt := t, message := m })
        { user := u, acknowledgedAt := t, message := m }
        c.acknowledgments := by
  simp only [CheckIn.addAcknowledgment, CheckIn.save,
    CheckIn.preSave_acknowledgments]

/-- C5: acknowledging an Alert or a CheckIn twice by the same user
(starting from at most one record for that user) leaves exactly one
acknowledgment record for that user, and that record carries the
response/notes (Alert) or message (CheckIn) and timestamp of the
latest acknowledgment. -/
theorem C5_acknowledge_per_user_upsert (a : Alert) (c : CheckIn) (u : Nat)
    (r₁ n₁ r₂ n₂ m₁ m₂ : String) (t₁ t₂ s₁ s₂ : Int)
    (ha : Alert.ackCount a u ≤ 1) (hc : CheckIn.ackCount c u ≤ 1) :
    Alert.ackCount
      (Alert.acknowledge (Alert.acknowledge a u r₁ n₁ t₁) u r₂ n₂ t₂) u = 1 ∧
    Alert.findAck
      (Alert.acknowledge (Alert.acknowledge a u r₁ n₁ t₁) u r₂ n₂ t₂) u =
      some { user := u, acknowledgedAt := t₂, response := r₂, notes := n₂ } ∧
    CheckIn.ackCount
      (CheckIn.addAcknowledgment (CheckIn.addAcknowledgment c u m₁ s₁) u m₂ s₂) u = 1 ∧
    CheckIn.findAck
      (CheckIn.addAcknowledgment (CheckIn.addAcknowledgment c u m₁ s₁) u m₂ s₂) u =
      some { user := u, acknowledgedAt := s₂, message := m₂ } := by
  have hpA₁ : ∀ x : Ack, ((fun ack : Ack => ack.user == u)
      ({ x with acknowledgedAt := t₁, response := r₁, notes := n₁ })) =
      (x.user == u) := fun _ => rfl
  have hpA₂ : ∀ x : Ack, ((fun ack : Ack => ack.user == u)
      ({ x with acknowledgedAt := t₂, response := r₂, notes := n₂ })) =
      (x.user == u) := fun _ => rfl
  have hpC₁ : ∀ x : CIAck, ((fun ack : CIAck => ack.user == u)
      ({ x with acknowledgedAt := s₁, message := m₁ })) = (x.user == u) :=
    fun _ => rfl
  have hpC₂ : ∀ x : CIAck, ((fun ack : CIAck => ack.user == u)
      ({ x with acknowledgedAt := s₂, message := m₂ })) = (x.user == u) :=
    fun _ => rfl
  have count₁ :
      Alert.ackCount (Alert.acknowledge a u r₁ n₁ t₁) u = 1 := by
    rw [Alert.ackCount, Alert.acknowledge_acknowledgedBy]
    exact upsert_filter_length _ _ _ _ hpA₁ (by simp) ha
  have countC₁ :
      CheckIn.ackCount (CheckIn.addAcknowledgment c u m₁ s₁) u = 1 := by
    rw [CheckIn.ackCount, CheckIn.addAcknowledgment_acknowledgments]
    exact upsert_filter_length _ _ _ _ hpC₁ (by simp) hc
  refine ⟨?_, ?_, ?_, ?_⟩
  · rw [Alert.ackCount, Alert.acknowledge_acknowledgedBy]
    exact upsert_filter_length _ _ _ _ hpA₂ (by simp) (by rw [← Alert.ackCount]; omega)
  · rw [Alert.findAck, Alert.acknowledge_acknowledgedBy,
      upsert_find? _ _ _ _ hpA₂ (by simp)]
    rw [Alert.acknowledge_acknowledgedBy,
      upsert_find? _ _ _ _ hpA₁ (by simp)]
    cases hfind : a.acknowledgedBy.find? (fun ack => ack.user == u) with
    | none => rfl
    | some x =>
        have hx : x.user = u := by
          have := List.find?_some hfind
          simpa using this
        simp [hx]
  · rw [CheckIn.ackCount, CheckIn.addAcknowledgment_acknowledgments]
    exact upsert_filter_length _ _ _ _ hpC₂ (by simp) (by rw [← CheckIn.ackCount]; omega)
  · rw [CheckIn.findAck, CheckIn.addAcknowledgment_acknowledgments,
      upsert_find? _ _ _ _ hpC₂ (by simp)]
    rw [CheckIn.addAcknowledgment_acknowledgments,
      upsert_find? _ _ _ _ hpC₁ (by simp)]
    cases hfind : c.acknowledgments.find? (fun ack => ack.user == u) with
    | none => rfl
    | some x =>
        have hx : x.user = u := by
          have := List.find?_some hfind
          simpa using this
        simp [hx]

/-- C5 witness: the idempotence theorem applied to the fresh sample
alert and check-in for user 2. -/
theorem C5_acknowledge_per_user_upsert_witness :
    Alert.ackCount baseAlert 2 ≤ 1 ∧ CheckIn.ackCount baseCheckIn 2 ≤ 1 ∧
    Alert.findAck
      (Alert.acknowledge (Alert.acknowledge baseAlert 2 "on-my-way" "a" 10)
        2 "monitoring" "b" 20) 2 =
      some { user := 2, acknowledgedAt := 20, response := "monitoring",
             notes := "b" } :=
  ⟨by decide, by decide,
    (C5_acknowledge_per_user_upsert baseAlert baseCheckIn 2
      "on-my-way" "a" "monitoring" "b" "x" "y" 10 20 30 40
      (by decide) (by decide)).2.1⟩

theorem CheckIn.preSave_of_not_active (c : CheckIn) (now : Int)
    (h : c.status ≠ "active") : CheckIn.preSave c now = c := by
  rw [CheckIn.preSave, if_neg]
  rintro ⟨h₁, -⟩
  exact h h₁

theorem CheckIn.save_status_overdue (c : CheckIn) (now : Int)
    (h : c.status = "active") (hp : c.expectedReturnTime < now) :
    (CheckIn.save c now).status = "overdue" := by
  rw [CheckIn.save, CheckIn.preSave, if_pos ⟨h, hp⟩]

/-- C6 counterexample: the claim states that `cancel` on a cancelled
check-in fails with `InvalidTransitionError`, yet the source's `cancel`
only guards against `completed`: on the cancelled sample check-in it
succeeds (as a status no-op). -/
theorem C6_cancel_on_cancelled_succeeds :
    ∃ c', CheckIn.cancel cancelledCheckIn 200 = .ok c' ∧
      c'.status = "cancelled" := by
  refine ⟨_, rfl, rfl⟩

/-- C6 amended: from `completed`, `complete`, `cancel` and
`updateLocation` all fail; from `cancelled`, `complete` and
`updateLocation` fail but `cancel` succeeds, leaving the status
`cancelled`. -/
theorem C6_terminal_status_guards (c : CheckIn) (notes : String)
    (lng lat now : Int)
    (h : c.status = "completed" ∨ c.status = "cancelled") :
    CheckIn.complete c notes now =
      .error "Only active or overdue check-ins can be completed" ∧
    CheckIn.updateLocation c lng lat now =
      .error "Can only update location for active check-ins" ∧
    (c.status = "completed" →
      CheckIn.cancel c now = .error "Cannot cancel a completed check-in") ∧
    (c.status = "cancelled" →
      ∃ c', CheckIn.cancel c now = .ok c' ∧ c'.status = "cancelled") := by
  refine ⟨?_, ?_, ?_, ?_⟩
  · rcases h with h | h <;> simp [CheckIn.complete, h]
  · rcases h with h | h <;> simp [CheckIn.updateLocation, h]
  · intro hcomp
    simp [CheckIn.cancel, hcomp]
  · intro hcanc
    rw [CheckIn.cancel, if_neg (by rw [hcanc]; decide)]
    refine ⟨_, rfl, ?_⟩
    rw [CheckIn.save, CheckIn.preSave_of_not_active _ _ (by simp)]

/-- C6 witness: the amended theorem applied to the cancelled sample
check-in. -/
theorem C6_terminal_status_guards_witness :
    (cancelledCheckIn.status = "completed" ∨
      cancelledCheckIn.status = "cancelled") ∧
    CheckIn.complete cancelledCheckIn "done" 200 =
      .error "Only active or overdue check-ins can be completed" :=
  ⟨Or.inr rfl,
    (C6_terminal_status_guards cancelledCheckIn "done" 1 2 200 (Or.inr rfl)).1⟩

/-- C7 counterexample: the claim states that the next mutation of an
active, past-deadline check-in observes `status=overdue` (under which
`updateLocation`, permitted only while `active`, would be rejected);
yet on the past-deadline sample check-in `updateLocation` succeeds —
its guard observed the stale `active` status. -/
theorem C7_updateLocation_guard_sees_stale_status :
    (∃ c', CheckIn.updateLocation pastDeadlineCheckIn 1 2 10 = .ok c') ∧
    CheckIn.updateLocation pastDeadlineCheckIn 1 2 10 ≠
      .error "Can only update location for active check-ins" := by
  refine ⟨⟨_, rfl⟩, ?_⟩
  intro hco
  have hT : (match CheckIn.updateLocation pastDeadlineCheckIn 1 2 10 with
             | .ok _ => true | .error _ => false) = true := rfl
  rw [hco] at hT
  simp at hT

/-- C7 amended: the `overdue` status of an active past-deadline
check-in is materialized whenever the document is saved (the pre-save
hook) or `checkOverdue` is explicitly invoked — so every mutation
persists `overdue` — but a mutation's own transition guard reads the
stale stored status: `updateLocation` still succeeds on such a
check-in (and a bare load performs no materialization). -/
theorem C7_overdue_materialized_on_save (c : CheckIn) (u : Nat) (m : String)
    (lng lat now : Int)
    (h : c.status = "active") (hpast : c.expectedReturnTime < now) :
    (CheckIn.preSave c now).status = "overdue" ∧
    (CheckIn.checkOverdue c now).status = "overdue" ∧
    (CheckIn.addAcknowledgment c u m now).status = "overdue" ∧
    (∃ c', CheckIn.updateLocation c lng lat now = .ok c' ∧
      c'.status = "overdue") := by
  refine ⟨?_, ?_, ?_, ?_⟩
  · rw [CheckIn.preSave, if_pos ⟨h, hpast⟩]
  · rw [CheckIn.checkOverdue, if_pos ⟨h, hpast⟩, CheckIn.save,
      CheckIn.preSave_of_not_active _ _ (by simp)]
  · exact CheckIn.save_status_overdue _ now h hpast
  · rw [CheckIn.updateLocation, if_neg (by simp [h])]
    exact ⟨_, rfl, CheckIn.save_status_overdue _ now h hpast⟩

/-- C7 witness: the amended theorem applied to the past-deadline sample
check-in at time 10. -/
theorem C7_overdue_materialized_on_save_witness :
    pastDeadlineCheckIn.status = "active" ∧
    pastDeadlineCheckIn.expectedReturnTime < 10 ∧
    (CheckIn.checkOverdue pastDeadlineCheckIn 10).status = "overdue" :=
  ⟨rfl, by decide,
    (C7_overdue_materialized_on_save pastDeadlineCheckIn 2 "hi" 1 2 10
      rfl (by decide)).2.1⟩

theorem mem_eq_of_pairwise_key {α} (key : α → Nat) {l : List α}
    (h : l.Pairwise (fun x y => key x ≠ key y)) {a b : α}
    (ha : a ∈ l) (hb : b ∈ l) (hk : key a = key b) : a = b := by
  induction l with
  | nil => cases ha
  | cons c l ih =>
    rcases List.mem_cons.mp ha with rfl | ha' <;>
      rcases List.mem_cons.mp hb with rfl | hb'
    · rfl
    · exact absurd hk ((List.pairwise_cons.mp h).1 b hb')
    · exact absurd hk (Ne.symm ((List.pairwise_cons.mp h).1 a ha'))
    · exact ih (List.pairwise_cons.mp h).2 ha' hb'

theorem adminCount_middle (l₁ l₂ : List Member) (x : Member) :
    ((l₁ ++ x :: l₂).filter (fun m => m.role == "admin" && m.isActive)).length =
      (l₁.filter (fun m => m.role == "admin" && m.isActive)).length +
      (l₂.filter (fun m => m.role == "admin" && m.isActive)).length +
      (if (x.role == "admin" && x.isActive) = true then 1 else 0) := by
  rw [List.filter_append, List.length_append, List.filter_cons]
  split <;> (simp; try omega)

/-- C8: while the membership list is well-formed (no duplicate user
entries) and at least one active admin exists, `removeMember` and
`updateMemberRole` preserve the at-least-one-active-admin invariant,
`removeMember` targeting the sole active admin fails with the
last-admin error, and `updateMemberRole` demoting the sole active admin
fails with the last-admin error. -/
theorem C8_last_admin_invariant (c : Circle) (u : Nat) (newRole : String)
    (now : Int)
    (huniq : c.members.Pairwise (fun x y => x.user ≠ y.user))
    (hinv : 1 ≤ c.activeAdminCount) :
    (∀ c', Circle.removeMember c u now = .ok c' →
      1 ≤ c'.activeAdminCount) ∧
    (∀ c', Circle.updateMemberRole c u newRole now = .ok c' →
      1 ≤ c'.activeAdminCount) ∧
    (c.soleActiveAdmin u →
      Circle.removeMember c u now =
        .error "Cannot remove the last admin from the circle") ∧
    (c.soleActiveAdmin u → newRole ≠ "admin" →
      Circle.updateMemberRole c u newRole now =
        .error "Cannot demote the last admin") := by
  refine ⟨?_, ?_, ?_, ?_⟩
  · intro c' hok
    rw [Circle.removeMember] at hok
    cases hfind : c.members.find? (fun m => m.user == u) with
    | none => rw [hfind] at hok; cases hok
    | some x =>
      rw [hfind] at hok
      dsimp only at hok
      by_cases hguard : x.role = "admin" ∧ c.activeAdminCount ≤ 1
      · rw [if_pos hguard] at hok; cases hok
      · rw [if_neg hguard] at hok
        obtain rfl : _ = c' := by injection hok
        obtain ⟨l₁, l₂, hl, -, hupd⟩ :=
          find?_decomp (fun m : Member => m.user == u)
            (fun m : Member => { m with isActive := false }) hfind
        have hx' : (({ x with isActive := false } : Member).role == "admin" &&
            ({ x with isActive := false } : Member).isActive) = false := by
          simp
        have hC : c.activeAdminCount =
            (l₁.filter (fun m => m.role == "admin" && m.isActive)).length +
            (l₂.filter (fun m => m.role == "admin" && m.isActive)).length +
            (if (x.role == "admin" && x.isActive) = true then 1 else 0) := by
          rw [Circle.activeAdminCount, hl, adminCount_middle]
        rw [hC] at hinv
        rw [Circle.activeAdminCount]
        dsimp only
        rw [hupd, adminCount_middle, hx']
        push_neg at hguard
        rw [if_neg Bool.false_ne_true]
        by_cases hpx : (x.role == "admin" && x.isActive) = true
        · have hadm : x.role = "admin" := by
            simp only [Bool.and_eq_true, beq_iff_eq] at hpx
            exact hpx.1
          have h2 : 2 ≤ c.activeAdminCount := hguard hadm
          rw [hC, if_pos hpx] at h2
          omega
        · rw [if_neg hpx] at hinv
          omega
  · intro c' hok
    rw [Circle.updateMemberRole] at hok
    cases hfind : c.members.find? (fun m => m.user == u && m.isActive) with
    | none => rw [hfind] at hok; cases hok
    | some x =>
      rw [hfind] at hok
      dsimp only at hok
      have hxact : x.isActive = true := by
        have := List.find?_some hfind
        simp only [Bool.and_eq_true, beq_iff_eq] at this
        exact this.2
      by_cases hguard : x.role = "admin" ∧ newRole ≠ "admin" ∧
          c.activeAdminCount ≤ 1
      · rw [if_pos hguard] at hok; cases hok
      · rw [if_neg hguard] at hok
        obtain rfl : _ = c' := by injection hok
        obtain ⟨l₁, l₂, hl, -, hupd⟩ :=
          find?_decomp (fun m : Member => m.user == u && m.isActive)
            (fun m : Member => { m with role := newRole }) hfind
        have hx' : (({ x with role := newRole } : Member).role == "admin" &&
            ({ x with role := newRole } : Member).isActive) =
            (newRole == "admin") := by
          simp [hxact]
        have hpx : (x.role == "admin" && x.isActive) = (x.role == "admin") := by
          simp [hxact]
        have hC : c.activeAdminCount =
            (l₁.filter (fun m => m.role == "admin" && m.isActive)).length +
            (l₂.filter (fun m => m.role == "admin" && m.isActive)).length +
            (if (x.role == "admin" && x.isActive) = true then 1 else 0) := by
          rw [Circle.activeAdminCount, hl, adminCount_middle]
        rw [hC] at hinv
        rw [Circle.activeAdminCount]
        dsimp only
        rw [hupd, adminCount_middle, hx']
        push_neg at hguard
        by_cases hadm : x.role = "admin" <;>
          by_cases hnr : newRole = "admin"
        · rw [if_pos (by simp [hnr])]
          omega
        · have h2 : 2 ≤ c.activeAdminCount := hguard hadm hnr
          rw [hC, if_pos (by simp [hadm, hxact])] at h2
          rw [if_neg (by simp [hnr])]
          omega
        · rw [if_pos (by simp [hnr])]
          omega
        · rw [if_neg (by simp [hadm, hxact])] at hinv
          rw [if_neg (by simp [hnr])]
          omega
  · rintro ⟨hcount, m, hm, hmu, hmact, hmrole⟩
    have hsome : (c.members.find? (fun x => x.user == u)).isSome := by
      rw [List.find?_isSome]
      exact ⟨m, hm, by simp [hmu]⟩
    obtain ⟨x, hfind⟩ := Option.isSome_iff_exists.mp hsome
    have hxmem : x ∈ c.members := List.mem_of_find?_eq_some hfind
    have hxu : x.user = u := by
      have := List.find?_some hfind
      simpa using this
    obtain rfl : x = m :=
      mem_eq_of_pairwise_key (fun m => m.user) huniq hxmem hm
        (hxu.trans hmu.symm)
    rw [Circle.removeMember, hfind]
    dsimp only
    rw [if_pos ⟨hmrole, le_of_eq hcount⟩]
  · rintro ⟨hcount, m, hm, hmu, hmact, hmrole⟩ hdem
    have hsome : (c.members.find? (fun x => x.user == u && x.isActive)).isSome := by
      rw [List.find?_isSome]
      exact ⟨m, hm, by simp [hmu, hmact]⟩
    obtain ⟨x, hfind⟩ := Option.isSome_iff_exists.mp hsome
    have hxmem : x ∈ c.members := List.mem_of_find?_eq_some hfind
    have hxu : x.user = u := by
      have := List.find?_some hfind
      simp only [Bool.and_eq_true, beq_iff_eq] at this
      exact this.1
    obtain rfl : x = m :=
      mem_eq_of_pairwise_key (fun m => m.user) huniq hxmem hm
        (hxu.trans hmu.symm)
    rw [Circle.updateMemberRole, hfind]
    dsimp only
    rw [if_pos ⟨hmrole, hdem, le_of_eq hcount⟩]

/-- C8 witness: the invariant theorem applied to the sample circle whose
sole active admin is user 1. -/
theorem C8_last_admin_invariant_witness :
    twoMemberCircle.members.Pairwise (fun x y => x.user ≠ y.user) ∧
    1 ≤ twoMemberCircle.activeAdminCount ∧
    Circle.removeMember twoMemberCircle 1 5 =
      .error "Cannot remove the last admin from the circle" :=
  ⟨by decide, by decide,
    (C8_last_admin_invariant twoMemberCircle 1 "member" 5 (by decide)
      (by decide)).2.2.1 (by decide)⟩

theorem memberCount_middle (l₁ l₂ : List Member) (x : Member) :
    ((l₁ ++ x :: l₂).filter (fun m => m.isActive)).length =
      (l₁.filter (fun m => m.isActive)).length +
      (l₂.filter (fun m => m.isActive)).length +
      (if x.isActive = true then 1 else 0) := by
  rw [List.filter_append, List.length_append, List.filter_cons]
  split <;> (simp; try omega)

/-- C9 counterexample: the claim states that `addMember` enforces the
capacity limit on every path including reactivation, yet on the full
sample circle (2 active members, `maxMembers = 2`) reactivating the
inactive member 3 succeeds and leaves 3 active members. -/
theorem C9_reactivation_bypasses_capacity :
    ∃ c', Circle.addMember fullCircle 3 "member" 5 = .ok c' ∧
      Circle.memberCount c' = 3 ∧ fullCircle.settings.maxMembers = 2 := by
  refine ⟨_, rfl, rfl, rfl⟩

/-- C9 amended: the `CapacityError` guard runs only on the brand-new
member path — there it fires exactly when the active member count has
reached `maxMembers`, and otherwise the active count grows by one —
while the reactivation path performs no capacity check at all:
reactivating an inactive member always succeeds and grows the active
count by one regardless of `maxMembers`. -/
theorem C9_capacity_check_only_for_new_members (c d : Circle) (u v : Nat)
    (role : String) (now : Int) (mv : Member)
    (hu : ∀ m ∈ c.members, m.user ≠ u)
    (hv : d.members.find? (fun m => m.user == v) = some mv)
    (hmv : mv.isActive = false) :
    (c.memberCount ≥ c.settings.maxMembers →
      Circle.addMember c u role now =
        .error "Circle has reached maximum member limit") ∧
    (c.memberCount < c.settings.maxMembers →
      ∃ c', Circle.addMember c u role now = .ok c' ∧
        Circle.memberCount c' = c.memberCount + 1) ∧
    (∃ d', Circle.addMember d v role now = .ok d' ∧
      Circle.memberCount d' = d.memberCount + 1) := by
  have hnone : c.members.find? (fun m => m.user == u) = none := by
    rw [List.find?_eq_none]
    intro m hm
    simp [hu m hm]
  refine ⟨?_, ?_, ?_⟩
  · intro hfull
    rw [Circle.addMember, hnone]
    dsimp only
    rw [if_pos hfull]
  · intro hroom
    rw [Circle.addMember, hnone]
    dsimp only
    rw [if_neg (not_le.mpr hroom)]
    refine ⟨_, rfl, ?_⟩
    rw [Circle.memberCount]
    dsimp only
    rw [List.filter_append, List.length_append, Circle.memberCount]
    simp
  · rw [Circle.addMember, hv]
    dsimp only
    refine ⟨_, rfl, ?_⟩
    obtain ⟨l₁, l₂, hl, -, hupd⟩ :=
      find?_decomp (fun m : Member => m.user == v)
        (fun m : Member => if m.isActive then m
          else { m with isActive := true, joinedAt := now }) hv
    have hf : (if mv.isActive then mv
        else { mv with isActive := true, joinedAt := now }) =
        { mv with isActive := true, joinedAt := now } := by
      rw [if_neg (by simp [hmv])]
    have hD : Circle.memberCount d =
        (l₁.filter (fun m => m.isActive)).length +
        (l₂.filter (fun m => m.isActive)).length := by
      rw [Circle.memberCount, hl, memberCount_middle, hmv]
      simp
    rw [Circle.memberCount]
    dsimp only
    rw [hupd, hf, memberCount_middle, hD]
    simp

/-- C9 witness: the amended theorem applied to the full sample circle
(for the reactivation conjunct) and user 9 (absent from the circle, for
the capacity conjunct). -/
theorem C9_capacity_check_only_for_new_members_witness :
    (∀ m ∈ fullCircle.members, m.user ≠ 9) ∧
    Circle.addMember fullCircle 9 "member" 5 =
      .error "Circle has reached maximum member limit" :=
  ⟨by decide,
    (C9_capacity_check_only_for_new_members fullCircle fullCircle 9 3
      "member" 5 { user := 3, role := "member", joinedAt := 0, isActive := false }
      (by decide) (by decide) rfl).1 (by decide)⟩

/-- C10: the `join:circle` handler subscribes any authenticated
connection to the requested circle's room with no membership check, so
every event later published to that circle through `emitToCircle`
reaches that connection. -/
theorem C10_join_circle_without_membership_check (s : SocketState)
    (c : Conn) (cid : String) (hc : c ∈ s.conns) :
    c.connId ∈
      SocketState.emitToCircle (SocketState.handleJoinCircle s c cid) cid := by
  rw [SocketState.emitToCircle, SocketState.roomMembers]
  refine List.mem_map.mpr ⟨c, List.mem_filter.mpr ⟨hc, ?_⟩, rfl⟩
  simp [SocketState.handleJoinCircle]

/-- C10 witness: the delivery theorem applied to the sample one-
connection state and an arbitrary circle id. -/
theorem C10_join_circle_without_membership_check_witness :
    ({ connId := 7, userId := 1 } : Conn) ∈ baseSocketState.conns ∧
    7 ∈ SocketState.emitToCircle
      (SocketState.handleJoinCircle baseSocketState
        { connId := 7, userId := 1 } "42") "42" :=
  ⟨by decide,
    C10_join_circle_without_membership_check baseSocketState
      { connId := 7, userId := 1 } "42" (by decide)⟩

end CCA
